import Mathlib

/-!
Verification of the dnstt client tunnel orchestrator against its
specification.  The Go sources embedded here are `client/tunnel.go`
(the `Tunnel` session orchestrator: stage methods `InitiateResolverConnection`,
`InitiateDNSPacketConn`, `InitiateKCPConn`, `InitiateNoiseChannel`,
`InitiateSmuxSession`, plus `Handle` and `Close`) and the companion client
file (resolver/tunnel-server construction `NewResolver` / `NewTunnelServer`
and the listener supervisor `Outbound.Start`).

External collaborators (the net package, kcp-go, the noise and smux
libraries, and the repository packages dns / noise / turbotunnel that are
not part of the analysed sources) are abstracted as oracles: records of
outcomes that each run of the program observes.  The embedded functions
consume those oracles exactly where the Go code performs the
corresponding calls.
-/

namespace Dnstt

/-! ## Resolver and tunnel-server configuration (client package) -/

inductive ResolverType where
  | udp
  | dot
  | doh
deriving DecidableEq, Repr

def ResolverType.str : ResolverType → String
  | .udp => "udp"
  | .dot => "dot"
  | .doh => "doh"

structure Resolver where
  resolverType : ResolverType
  resolverAddr : String
deriving DecidableEq, Repr

/-- Go `NewResolver`: only the UDP resolver type is accepted. -/
def NewResolver (resolverType : ResolverType) (resolverAddr : String) :
    Except String Resolver :=
  match resolverType with
  | .udp => .ok { resolverType := resolverType, resolverAddr := resolverAddr }
  | rt => .error ("unsupported resolver type: " ++ rt.str)

/-- Opaque stand-in for `dns.Name` (the dns package is an external
collaborator of the analysed files). -/
structure DnsName where
  name : String
deriving DecidableEq, Repr

/-- Modelled from the spec: the repository packages `dns` (`ParseName`),
`noise` (`DecodeKey`) and the DNS-transport capacity function
`dnsNameCapacity` together with the padding constant `numPadding` are not
among the analysed sources.  Per spec sections 4.1 and 6 they are consulted,
not reimplemented, so they appear as an oracle environment: `parseName`
may reject a malformed domain, `decodeKey` may reject a malformed public
key, `dnsNameCapacity` is the number of payload bytes encodable under the
naming-format limits for a suffix, and `numPadding` is the maximum padding
size reserved per message. -/
structure NameEnv where
  parseName : String → Except String DnsName
  decodeKey : String → Except String (List Nat)
  dnsNameCapacity : DnsName → Int
  numPadding : Int

structure TunnelServer where
  Addr : DnsName
  PubKey : String
  MTU : Int
  decodedNoisePubKey : List Nat
deriving DecidableEq, Repr

/-- Go `NewTunnelServer`: parse the domain, decode the public key, derive
`mtu = dnsNameCapacity(domain) - 8 - 1 - numPadding - 1` (client id,
padding length prefix, padding, data length prefix) and reject the domain
when fewer than 80 payload bytes remain. -/
def NewTunnelServer (env : NameEnv) (addr : String) (pubKeyString : String) :
    Except String TunnelServer :=
  match env.parseName addr with
  | .error e => .error ("invalid domain: " ++ e)
  | .ok domain =>
    match env.decodeKey pubKeyString with
    | .error e => .error ("pubkey format error: " ++ e)
    | .ok pubkey =>
      let mtu : Int := env.dnsNameCapacity domain - 8 - 1 - env.numPadding - 1
      if mtu < 80 then
        .error ("domain leaves only " ++ toString mtu ++ " bytes for payload")
      else
        .ok { Addr := domain, PubKey := pubKeyString, MTU := mtu,
              decodedNoisePubKey := pubkey }

/-! ## Tunnel state and the bring-up stage methods (client/tunnel.go) -/

/-- Configuration applied to the KCP connection by `InitiateKCPConn`:
`SetStreamMode`, `SetNoDelay(nodelay, interval, resend, nc)`,
`SetWindowSize(sndWnd, rcvWnd)`, `SetMtu(mtu)`. -/
structure KCPConfig where
  streamMode : Bool
  nodelay : Nat
  interval : Nat
  resend : Nat
  nc : Nat
  sndWnd : Nat
  rcvWnd : Nat
  mtu : Int
deriving DecidableEq, Repr

/-- The `Tunnel` struct: configuration plus at most one live handle per
layer.  Handles are modelled by `Option` values recording presence; the
KCP handle records the configuration applied to it. -/
structure Tunnel where
  resolver : Resolver
  tunnelServer : TunnelServer
  addrSet : Bool
  resolverConn : Option Unit
  dnsPacketConn : Option Unit
  kcpConn : Option KCPConfig
  noiseChannel : Option Unit
  smuxSession : Option Unit
deriving DecidableEq, Repr

/-- The tunnel as `NewTunnel` builds it: configuration stored, no handle
set. -/
def initTunnel (resolver : Resolver) (tunnelServer : TunnelServer) : Tunnel :=
  { resolver := resolver, tunnelServer := tunnelServer, addrSet := false,
    resolverConn := none, dnsPacketConn := none, kcpConn := none,
    noiseChannel := none, smuxSession := none }

/-- Go `NewTunnel`: stores the endpoints and never fails (it still returns
an error value, which the caller checks). -/
def NewTunnel (resolver : Resolver) (tunnelServer : TunnelServer) :
    Except String Tunnel :=
  .ok (initTunnel resolver tunnelServer)

/-- Result of one Go call that can return normally, return an error, or
abort the process via `panic`. -/
inductive Outcome (α : Type) where
  | ok (a : α)
  | error (e : String)
  | panicked
deriving DecidableEq, Repr

def Outcome.isError {α : Type} : Outcome α → Bool
  | .error _ => true
  | _ => false

/-- Oracle for the external calls performed during bring-up: address
resolution and socket binding (net package), `kcp.NewConn2` and
`SetMtu`'s acceptance predicate (kcp-go), `noise.NewClient` and
`smux.Client`.  `queueSize` models `turbotunnel.QueueSize`
(Modelled from the spec: a fixed queue-size constant of a repository
package outside the analysed sources; only `queueSize/2` is ever used). -/
structure World where
  resolveTCPAddr : String → Except String Unit
  listenTCP : Except String Unit
  resolveUDPAddr : String → Except String Unit
  listenUDP : Except String Unit
  newConn2 : Except String Unit
  setMtuOk : Int → Bool
  queueSize : Nat
  noiseNewClient : Except String Unit
  smuxClient : Except String Unit

/-- Go `Tunnel.InitiateResolverConnection`: for a UDP resolver, resolve the
resolver address and open an unbound UDP socket; store the connection and
address.  Any other resolver type is rejected. -/
def Tunnel.InitiateResolverConnection (t : Tunnel) (w : World) : Outcome Tunnel :=
  match t.resolver.resolverType with
  | .udp =>
    match w.resolveUDPAddr t.resolver.resolverAddr with
    | .error e => .error e
    | .ok _ =>
      match w.listenUDP with
      | .error e => .error e
      | .ok _ => .ok { t with resolverConn := some (), addrSet := true }
  | rt => .error ("unsupported resolver type: " ++ rt.str)

/-- Go `Tunnel.InitiateDNSPacketConn`: for a UDP resolver, wrap the bound
socket and target address into a DNS packet conn scoped to `domain`
(`NewDNSPacketConn` cannot fail); any other resolver type is rejected. -/
def Tunnel.InitiateDNSPacketConn (t : Tunnel) (domain : DnsName) : Outcome Tunnel :=
  match t.resolver.resolverType with
  | .udp =>
    let _ := domain
    .ok { t with dnsPacketConn := some () }
  | rt => .error ("unsupported resolver type: " ++ rt.str)

/-- Go `Tunnel.InitiateKCPConn`: open a KCP conn over the DNS packet conn,
enable stream mode, pass `0,0,0,1` to `SetNoDelay` (nc=1 turns the dynamic
congestion window off), set both windows to `QueueSize/2`, then call
`SetMtu(mtu)` — and `panic` if the transport rejects the value. -/
def Tunnel.InitiateKCPConn (t : Tunnel) (w : World) (mtu : Int) : Outcome Tunnel :=
  match w.newConn2 with
  | .error e => .error ("opening KCP conn: " ++ e)
  | .ok _ =>
    let conn : KCPConfig :=
      { streamMode := true, nodelay := 0, interval := 0, resend := 0, nc := 1,
        sndWnd := w.queueSize / 2, rcvWnd := w.queueSize / 2, mtu := mtu }
    if w.setMtuOk mtu then
      .ok { t with kcpConn := some conn }
    else
      .panicked

/-- Go `Tunnel.InitiateNoiseChannel`: client-role Noise handshake over the
KCP conn against the decoded server public key. -/
def Tunnel.InitiateNoiseChannel (t : Tunnel) (w : World) : Outcome Tunnel :=
  match w.noiseNewClient with
  | .error e => .error ("initiating Noise channel: " ++ e)
  | .ok _ => .ok { t with noiseChannel := some () }

/-- Go `Tunnel.InitiateSmuxSession`: client-role smux session over the
Noise channel (version 2, two-minute keep-alive, 1 MiB stream buffer). -/
def Tunnel.InitiateSmuxSession (t : Tunnel) (w : World) : Outcome Tunnel :=
  match w.smuxClient with
  | .error e => .error ("opening smux session: " ++ e)
  | .ok _ => .ok { t with smuxSession := some () }

/-! ## Teardown (Tunnel.Close) -/

/-- The five layer handles, which double as the identities of the five
bring-up stages. -/
inductive Layer where
  | resolverConn
  | dnsPacketConn
  | kcpConn
  | noiseChannel
  | smuxSession
deriving DecidableEq, Repr

/-- The order in which `Outbound.Start` brings the layers up, which is
also the order in which `Tunnel.Close` walks its nil checks. -/
def stageOrder : List Layer :=
  [.resolverConn, .dnsPacketConn, .kcpConn, .noiseChannel, .smuxSession]

def Tunnel.layerPresent (t : Tunnel) : Layer → Bool
  | .resolverConn => t.resolverConn.isSome
  | .dnsPacketConn => t.dnsPacketConn.isSome
  | .kcpConn => t.kcpConn.isSome
  | .noiseChannel => t.noiseChannel.isSome
  | .smuxSession => t.smuxSession.isSome

/-- Oracle for teardown: the result each handle's own `Close()` call would
produce.  The Go code discards every one of these results (the
underscore assignments), so they influence nothing. -/
structure CloseWorld where
  closeErr : Layer → Option String

/-- The sequence of underlying `Close()` calls `Tunnel.Close` performs:
each handle is nil-checked and, when present, closed, walking the fields
in the textual order of the function body. -/
def Tunnel.CloseTrace (t : Tunnel) : List Layer :=
  (if t.resolverConn.isSome then [Layer.resolverConn] else []) ++
  (if t.dnsPacketConn.isSome then [Layer.dnsPacketConn] else []) ++
  (if t.kcpConn.isSome then [Layer.kcpConn] else []) ++
  (if t.noiseChannel.isSome then [Layer.noiseChannel] else []) ++
  (if t.smuxSession.isSome then [Layer.smuxSession] else [])

/-- Go `Tunnel.Close`: close every present handle in field order,
discard each handle's close result, leave the fields untouched and return
nil.  The value is (closes attempted, tunnel afterwards, returned error). -/
def Tunnel.Close (cw : CloseWorld) (t : Tunnel) :
    List Layer × Tunnel × Option String :=
  let _ := cw
  (t.CloseTrace, t, none)

structure CloseNRun where
  trace : List Layer
  final : Tunnel
  results : List (Option String)
deriving DecidableEq, Repr

/-- `n` successive calls of `Tunnel.Close`, accumulating the close
attempts of every call and the error value each call returned. -/
def Tunnel.CloseN (cw : CloseWorld) (t : Tunnel) : Nat → CloseNRun
  | 0 => ⟨[], t, []⟩
  | n + 1 =>
    let r := Tunnel.Close cw t
    let rest := Tunnel.CloseN cw r.2.1 n
    ⟨r.1 ++ rest.trace, rest.final, r.2.2 :: rest.results⟩

/-! ## Listener supervisor (Outbound.Start) -/

structure Outbound where
  Resolvers : List Resolver
  TunnelServers : List TunnelServer
deriving DecidableEq, Repr

def NewOutbound (resolvers : List Resolver) (tunnelServers : List TunnelServer) :
    Outbound :=
  { Resolvers := resolvers, TunnelServers := tunnelServers }

/-- What one run of `Outbound.Start` did up to the accept loop: which
bring-up stages were invoked, how the call ended (`ok ()` means the accept
loop was reached), and whether the deferred `tunnel.Close()` ran. -/
structure StartResult where
  invoked : List Layer
  outcome : Outcome Unit
  closeCalled : Bool
deriving DecidableEq, Repr

/-- Go `Outbound.Start` up to the accept loop: resolve and bind the local
TCP listener, select `Resolvers[0]` and `TunnelServers[0]` (a two-element
index operation with no emptiness check, hence a runtime panic on an empty
list, modelled by `head? = none`), create the tunnel, register the
deferred `tunnel.Close()`, then run the five bring-up stages in order,
wrapping each stage's error.  Reaching the accept loop means `Start` never
returns and the deferred close never runs. -/
def Outbound.Start (o : Outbound) (w : World) (bind : String) : StartResult :=
  match w.resolveTCPAddr bind with
  | .error e => ⟨[], .error ("invalid local address: " ++ e), false⟩
  | .ok _ =>
  match w.listenTCP with
  | .error e => ⟨[], .error ("opening local listener: " ++ e), false⟩
  | .ok _ =>
  match o.Resolvers.head? with
  | none => ⟨[], .panicked, false⟩
  | some resolver =>
  match o.TunnelServers.head? with
  | none => ⟨[], .panicked, false⟩
  | some tunnelServer =>
  match NewTunnel resolver tunnelServer with
  | .error e => ⟨[], .error ("failed to create tunnel: " ++ e), false⟩
  | .ok t0 =>
  match t0.InitiateResolverConnection w with
  | .error e =>
      ⟨[.resolverConn],
       .error ("failed to initiate connection to resolver: " ++ e), true⟩
  | .panicked => ⟨[.resolverConn], .panicked, true⟩
  | .ok t1 =>
  match t1.InitiateDNSPacketConn tunnelServer.Addr with
  | .error e =>
      ⟨[.resolverConn, .dnsPacketConn],
       .error ("failed to initiate DNS packet connection: " ++ e), true⟩
  | .panicked => ⟨[.resolverConn, .dnsPacketConn], .panicked, true⟩
  | .ok t2 =>
  match t2.InitiateKCPConn w tunnelServer.MTU with
  | .error e =>
      ⟨[.resolverConn, .dnsPacketConn, .kcpConn],
       .error ("failed to initiate KCP connection: " ++ e), true⟩
  | .panicked => ⟨[.resolverConn, .dnsPacketConn, .kcpConn], .panicked, true⟩
  | .ok t3 =>
  match t3.InitiateNoiseChannel w with
  | .error e =>
      ⟨[.resolverConn, .dnsPacketConn, .kcpConn, .noiseChannel],
       .error ("failed to initiate Noise channel: " ++ e), true⟩
  | .panicked =>
      ⟨[.resolverConn, .dnsPacketConn, .kcpConn, .noiseChannel], .panicked, true⟩
  | .ok t4 =>
  match t4.InitiateSmuxSession w with
  | .error e =>
      ⟨stageOrder, .error ("failed to initiate smux session: " ++ e), true⟩
  | .panicked => ⟨stageOrder, .panicked, true⟩
  | .ok _ => ⟨stageOrder, .ok (), false⟩

/-! ## Specification-side bring-up driver

The spec (section 4.2) describes bring-up as: walk the stages in their
fixed order, each stage entered only after the previous one succeeded;
a failing stage aborts the remaining ones, its error is wrapped with the
stage's identity, and the deferred teardown still runs.  `bringUp` states
exactly that as a driver over the very stage functions embedded above;
`Outbound.Start` is then proved equal to it. -/

/-- Dispatch one stage on the current tunnel state, exactly as
`Outbound.Start` invokes it. -/
def applyStage (w : World) (t : Tunnel) : Layer → Outcome Tunnel
  | .resolverConn => t.InitiateResolverConnection w
  | .dnsPacketConn => t.InitiateDNSPacketConn t.tunnelServer.Addr
  | .kcpConn => t.InitiateKCPConn w t.tunnelServer.MTU
  | .noiseChannel => t.InitiateNoiseChannel w
  | .smuxSession => t.InitiateSmuxSession w

/-- The wrapper text `Outbound.Start` prepends to each stage's error. -/
def stageWrap : Layer → String
  | .resolverConn => "failed to initiate connection to resolver: "
  | .dnsPacketConn => "failed to initiate DNS packet connection: "
  | .kcpConn => "failed to initiate KCP connection: "
  | .noiseChannel => "failed to initiate Noise channel: "
  | .smuxSession => "failed to initiate smux session: "

/-- First-failure driver: run the remaining stages in order on the evolving
tunnel state; stop at the first stage that does not succeed, wrapping its
error and recording that the deferred close ran. -/
def bringUp (w : World) : Tunnel → List Layer → List Layer → StartResult
  | _, done, [] => ⟨done.reverse, .ok (), false⟩
  | t, done, l :: ls =>
    match applyStage w t l with
    | .ok t' => bringUp w t' (l :: done) ls
    | .error e => ⟨(l :: done).reverse, .error (stageWrap l ++ e), true⟩
    | .panicked => ⟨(l :: done).reverse, .panicked, true⟩

/-! ## Accept loop (the tail of Outbound.Start) -/

/-- Observable effect of one accept-loop iteration: a connection handed to
a per-connection goroutine, or a log line.  The embedded loop never emits
`acceptLog`: the constructor exists so that the spec's "accept errors are
logged" can be stated and settled. -/
inductive AcceptEv where
  | spawned (conn : Nat)
  | acceptLog (msg : String)
deriving DecidableEq, Repr

/-- Go accept loop of `Outbound.Start`, run on a finite prefix of the
results `ln.Accept()` produces: an error makes the loop `continue` with no
other effect; a connection is handed to a freshly spawned goroutine. -/
def Outbound.acceptLoop : List (Except String Nat) → List AcceptEv
  | [] => []
  | .error _ :: rest => Outbound.acceptLoop rest
  | .ok c :: rest => AcceptEv.spawned c :: Outbound.acceptLoop rest

/-- Number of log lines among the accept-loop events. -/
def logCount (evs : List AcceptEv) : Nat :=
  evs.countP fun e =>
    match e with
    | .acceptLog _ => true
    | _ => false

/-! ## Stream bridge (Tunnel.Handle and the per-connection goroutine) -/

/-- Error value an `io.Copy` direction can finish with (`none` is a clean
finish / nil error). -/
inductive CopyErr where
  | eof
  | closedPipe
  | other (msg : String)
deriving DecidableEq, Repr

def copyErrMsg : CopyErr → String
  | .eof => "EOF"
  | .closedPipe => "io: read/write on closed pipe"
  | .other m => m

/-- Observable events of `Tunnel.Handle` and its caller. -/
inductive Ev where
  | copyLog (streamToLocal : Bool) (msg : String)
  | closeRead
  | closeWrite
  | streamClose
  | endStreamLog
  | lconnClose
  | handleLog (msg : String)
deriving DecidableEq, Repr

def Ev.isHandleLog : Ev → Bool
  | .handleLog _ => true
  | _ => false

/-- The copy-error handling both goroutines share: `io.EOF` is downgraded
to nil, and what remains is logged unless it is the closed-pipe error. -/
def copyLogEvents (streamToLocal : Bool) (r : Option CopyErr) : List Ev :=
  match (match r with | some CopyErr.eof => none | r' => r') with
  | none => []
  | some CopyErr.closedPipe => []
  | some e => [Ev.copyLog streamToLocal (copyErrMsg e)]

/-- Events of the local→stream goroutine (`io.Copy(stream, lconn)`):
optional log, then `lconn.CloseRead()`, then `stream.Close()`. -/
def localToStreamEvents (r : Option CopyErr) : List Ev :=
  copyLogEvents false r ++ [Ev.closeRead, Ev.streamClose]

/-- Events of the stream→local goroutine (`io.Copy(lconn, stream)`):
optional log, then `lconn.CloseWrite()`; it does not close the stream. -/
def streamToLocalEvents (r : Option CopyErr) : List Ev :=
  copyLogEvents true r ++ [Ev.closeWrite]

/-- Merge two event lists under an explicit schedule: each `true` takes
the next event of the first list, each `false` the next event of the
second; an exhausted schedule or list flushes the rest. -/
def interleave {α : Type} : List Bool → List α → List α → List α
  | [], xs, ys => xs ++ ys
  | _ :: _, [], ys => ys
  | _ :: _, x :: xs, [] => x :: xs
  | true :: s, x :: xs, y :: ys => x :: interleave s xs (y :: ys)
  | false :: s, x :: xs, y :: ys => y :: interleave s (x :: xs) ys

/-- `Interleaving xs ys zs`: `zs` is some order-preserving merge of `xs`
and `ys` — how the two concurrently scheduled copy goroutines may appear
to an observer. -/
inductive Interleaving {α : Type} : List α → List α → List α → Prop
  | nil : Interleaving [] [] []
  | left {x : α} {xs ys zs : List α} :
      Interleaving xs ys zs → Interleaving (x :: xs) ys (x :: zs)
  | right {y : α} {xs ys zs : List α} :
      Interleaving xs ys zs → Interleaving xs (y :: ys) (y :: zs)

/-- What one call of `Tunnel.Handle` did: its event trace and the error it
returned. -/
structure HandleRun where
  events : List Ev
  result : Option String
deriving DecidableEq, Repr

/-- Go `Tunnel.Handle`: open a stream on the shared smux session (failure
returns the wrapped error immediately); otherwise run the two copy
goroutines — whose events interleave under the scheduler `sched` — wait
for both on the `WaitGroup`, and only then run the deferred end-of-stream
log and `stream.Close()`.  The returned value is the `err` of
`OpenStream`, which on this path is nil: both goroutines shadow `err`
locally, so copy failures never reach the return value. -/
def Tunnel.Handle (openStream : Except String Unit) (sched : List Bool)
    (r1 r2 : Option CopyErr) : HandleRun :=
  match openStream with
  | .error e => { events := [], result := some ("opening stream: " ++ e) }
  | .ok _ =>
    { events := interleave sched (localToStreamEvents r1) (streamToLocalEvents r2)
        ++ [Ev.endStreamLog, Ev.streamClose],
      result := none }

/-- The per-connection goroutine `Outbound.Start` spawns around
`Tunnel.Handle`: run `Handle`, log its error if there is one, and finally
run the deferred `local.Close()`. -/
def connTask (openStream : Except String Unit) (sched : List Bool)
    (r1 r2 : Option CopyErr) : List Ev :=
  let h := Tunnel.Handle openStream sched r1 r2
  h.events ++
    (match h.result with
     | some e => [Ev.handleLog ("handle: " ++ e)]
     | none => []) ++
    [Ev.lconnClose]

/-! ## Concrete fixtures for witnesses and counterexamples -/

/-- A sample UDP resolver. -/
def r0 : Resolver := { resolverType := .udp, resolverAddr := "198.51.100.3:53" }

/-- A sample tunnel server whose stored MTU (2000) exceeds what kcp-go's
`SetMtu` accepts; `TunnelServer` is a public struct, so such values are
constructible by any caller of the package. -/
def tsBig : TunnelServer :=
  { Addr := ⟨"t.example.com"⟩, PubKey := "00", MTU := 2000,
    decodedNoisePubKey := [0] }

/-- A sample tunnel server with an ordinary MTU. -/
def ts0 : TunnelServer :=
  { Addr := ⟨"t.example.com"⟩, PubKey := "00", MTU := 120,
    decodedNoisePubKey := [0] }

/-- A world in which every external call succeeds; `setMtuOk` mirrors the
published kcp-go bounds (50 ≤ mtu ≤ 1500) and `queueSize` is a sample
value. -/
def wOk : World :=
  { resolveTCPAddr := fun _ => .ok (),
    listenTCP := .ok (),
    resolveUDPAddr := fun _ => .ok (),
    listenUDP := .ok (),
    newConn2 := .ok (),
    setMtuOk := fun m => decide (50 ≤ m ∧ m ≤ 1500),
    queueSize := 256,
    noiseNewClient := .ok (),
    smuxClient := .ok () }

/-- A supervisor with one resolver and one ordinary tunnel server. -/
def ob0 : Outbound := { Resolvers := [r0], TunnelServers := [ts0] }

/-- A supervisor whose single tunnel server's MTU the transport rejects. -/
def obBig : Outbound := { Resolvers := [r0], TunnelServers := [tsBig] }

/-- A supervisor configured with no resolvers at all. -/
def obEmpty : Outbound := { Resolvers := [], TunnelServers := [ts0] }

/-- A teardown world in which every handle's close fails. -/
def cwFail : CloseWorld := { closeErr := fun _ => some "close failed" }

/-- A tunnel with all five layer handles live, as after full bring-up. -/
def fullT : Tunnel :=
  { resolver := r0, tunnelServer := ts0, addrSet := true,
    resolverConn := some (), dnsPacketConn := some (),
    kcpConn := some { streamMode := true, nodelay := 0, interval := 0,
                      resend := 0, nc := 1, sndWnd := 128, rcvWnd := 128,
                      mtu := 120 },
    noiseChannel := some (), smuxSession := some () }

/-- A sample name environment for the `NewTunnelServer` witness. -/
def env0 : NameEnv :=
  { parseName := fun s => .ok ⟨s⟩,
    decodeKey := fun _ => .ok [1, 2],
    dnsNameCapacity := fun _ => 200,
    numPadding := 30 }

/-! ## Helper lemmas -/

lemma interleaving_nil_left {α : Type} :
    ∀ ys : List α, Interleaving [] ys ys := by
  intro ys
  induction ys with
  | nil => exact .nil
  | cons y ys ih => exact .right ih

lemma interleaving_nil_right {α : Type} :
    ∀ xs : List α, Interleaving xs [] xs := by
  intro xs
  induction xs with
  | nil => exact .nil
  | cons x xs ih => exact .left ih

lemma interleaving_append {α : Type} :
    ∀ xs ys : List α, Interleaving xs ys (xs ++ ys) := by
  intro xs
  induction xs with
  | nil => intro ys; simpa using interleaving_nil_left ys
  | cons x xs ih => intro ys; exact .left (ih ys)

lemma interleaving_interleave {α : Type} :
    ∀ (s : List Bool) (xs ys : List α), Interleaving xs ys (interleave s xs ys) := by
  intro s
  induction s with
  | nil =>
    intro xs ys
    exact interleaving_append xs ys
  | cons b s ih =>
    intro xs ys
    cases xs with
    | nil => simpa [interleave] using interleaving_nil_left ys
    | cons x xs =>
      cases ys with
      | nil => simpa [interleave] using interleaving_nil_right (x :: xs)
      | cons y ys =>
        cases b with
        | true => exact .left (ih xs (y :: ys))
        | false => exact .right (ih (x :: xs) ys)

lemma interleaving_mem {α : Type} {xs ys zs : List α} {a : α}
    (h : Interleaving xs ys zs) (ha : a ∈ zs) : a ∈ xs ∨ a ∈ ys := by
  induction h with
  | nil => cases ha
  | left _ ih =>
    rcases List.mem_cons.mp ha with h1 | h2
    · exact Or.inl (h1 ▸ List.mem_cons_self _ _)
    · rcases ih h2 with h3 | h3
      · exact Or.inl (List.mem_cons_of_mem _ h3)
      · exact Or.inr h3
  | right _ ih =>
    rcases List.mem_cons.mp ha with h1 | h2
    · exact Or.inr (h1 ▸ List.mem_cons_self _ _)
    · rcases ih h2 with h3 | h3
      · exact Or.inl h3
      · exact Or.inr (List.mem_cons_of_mem _ h3)

lemma bringUp_invoked_take (w : World) :
    ∀ (rest : List Layer) (t : Tunnel) (done : List Layer),
      ∃ k, (bringUp w t done rest).invoked = done.reverse ++ rest.take k := by
  intro rest
  induction rest with
  | nil =>
    intro t done
    exact ⟨0, by simp [bringUp]⟩
  | cons l ls ih =>
    intro t done
    cases h : applyStage w t l with
    | ok t' =>
      obtain ⟨k, hk⟩ := ih t' (l :: done)
      refine ⟨k + 1, ?_⟩
      simp only [bringUp, h]
      rw [hk]
      simp [List.take_succ_cons]
    | error e =>
      exact ⟨1, by simp [bringUp, h]⟩
    | panicked =>
      exact ⟨1, by simp [bringUp, h]⟩

lemma bringUp_close_or_ok (w : World) :
    ∀ (rest : List Layer) (t : Tunnel) (done : List Layer),
      (bringUp w t done rest).outcome = Outcome.ok () ∨
        (bringUp w t done rest).closeCalled = true := by
  intro rest
  induction rest with
  | nil => intro t done; exact Or.inl rfl
  | cons l ls ih =>
    intro t done
    cases h : applyStage w t l with
    | ok t' => simpa [bringUp, h] using ih t' (l :: done)
    | error e => exact Or.inr (by simp [bringUp, h])
    | panicked => exact Or.inr (by simp [bringUp, h])

lemma copyLogEvents_no_handleLog (b : Bool) (r : Option CopyErr) :
    (copyLogEvents b r).all (fun e => !e.isHandleLog) = true := by
  rcases r with _ | e
  · rfl
  · cases e <;> rfl

lemma interleave_all {α : Type} (p : α → Bool) :
    ∀ (s : List Bool) (xs ys : List α), xs.all p = true → ys.all p = true →
      (interleave s xs ys).all p = true := by
  intro s xs ys hx hy
  rw [List.all_eq_true] at hx hy ⊢
  intro a ha
  rcases interleaving_mem (interleaving_interleave s xs ys) ha with h | h
  · exact hx a h
  · exact hy a h

lemma localToStreamEvents_no_handleLog (r : Option CopyErr) :
    (localToStreamEvents r).all (fun e => !e.isHandleLog) = true := by
  unfold localToStreamEvents
  rw [List.all_append]
  rw [copyLogEvents_no_handleLog]
  rfl

lemma streamToLocalEvents_no_handleLog (r : Option CopyErr) :
    (streamToLocalEvents r).all (fun e => !e.isHandleLog) = true := by
  unfold streamToLocalEvents
  rw [List.all_append]
  rw [copyLogEvents_no_handleLog]
  rfl

lemma closeTrace_all_present (t : Tunnel) :
    t.CloseTrace.all (fun l => t.layerPresent l) = true := by
  rcases t with ⟨res, ts, aset, rc, dc, kc, nc, sm⟩
  cases rc <;> cases dc <;> cases kc <;> cases nc <;> cases sm <;> rfl

/-! ## Claim theorems -/

/-- Claim C1 (code bug evaluated): with an empty `Resolvers` list and a
bindable local address, `Outbound.Start` reaches the unguarded
`o.Resolvers[0]` selection and aborts with an index-out-of-bounds panic
(no stage is invoked, no error value is returned), instead of returning
the `NoEndpointsConfigured` error the claim requires. -/
theorem start_empty_resolvers_out_of_bounds :
    Outbound.Start obEmpty wOk "127.0.0.1:7000"
      = { invoked := [], outcome := Outcome.panicked, closeCalled := false } := rfl

/-- Claim C2 (code bug evaluated): when the ordered transport rejects the
requested unit size (here mtu = 2000 against kcp-go's 50..1500 window),
`Tunnel.InitiateKCPConn` aborts via `panic(rc)` rather than returning the
explicit configuration error the claim requires. -/
theorem kcp_mtu_rejected_aborts :
    Tunnel.InitiateKCPConn (initTunnel r0 tsBig) wOk 2000 = Outcome.panicked := by
  decide

/-- Claim C3: for a domain that parses and a public key that decodes, the
derived MTU is `dnsNameCapacity(domain) - 8 - 1 - numPadding - 1`;
construction fails exactly when that value is below 80, and on success the
stored `MTU` field (together with the stored domain and decoded key) equals
the derived value. -/
theorem NewTunnelServer_mtu (env : NameEnv) (addr pk : String)
    (domain : DnsName) (pubkey : List Nat)
    (hd : env.parseName addr = Except.ok domain)
    (hk : env.decodeKey pk = Except.ok pubkey) :
    NewTunnelServer env addr pk =
      (if env.dnsNameCapacity domain - 8 - 1 - env.numPadding - 1 < 80 then
        Except.error ("domain leaves only "
          ++ toString (env.dnsNameCapacity domain - 8 - 1 - env.numPadding - 1)
          ++ " bytes for payload")
      else
        Except.ok { Addr := domain, PubKey := pk,
                    MTU := env.dnsNameCapacity domain - 8 - 1 - env.numPadding - 1,
                    decodedNoisePubKey := pubkey })
    ∧ ((∃ ts, NewTunnelServer env addr pk = Except.ok ts) ↔
        80 ≤ env.dnsNameCapacity domain - 8 - 1 - env.numPadding - 1) := by
  have h1 : NewTunnelServer env addr pk =
      (if env.dnsNameCapacity domain - 8 - 1 - env.numPadding - 1 < 80 then
        Except.error ("domain leaves only "
          ++ toString (env.dnsNameCapacity domain - 8 - 1 - env.numPadding - 1)
          ++ " bytes for payload")
      else
        Except.ok { Addr := domain, PubKey := pk,
                    MTU := env.dnsNameCapacity domain - 8 - 1 - env.numPadding - 1,
                    decodedNoisePubKey := pubkey }) := by
    simp only [NewTunnelServer, hd, hk]
  refine ⟨h1, ?_⟩
  rw [h1]
  by_cases h : env.dnsNameCapacity domain - 8 - 1 - env.numPadding - 1 < 80
  · simp only [h, if_pos]
    constructor
    · rintro ⟨ts, hts⟩
      cases hts
    · intro hge
      omega
  · simp only [h, if_neg, not_false_iff]
    constructor
    · intro _
      omega
    · intro _
      exact ⟨_, rfl⟩

/-- Witness for C3 at a concrete environment (capacity 200, padding 30,
derived MTU 160 ≥ 80). -/
theorem NewTunnelServer_mtu_witness :
    NewTunnelServer env0 "example.com" "k" =
      (if env0.dnsNameCapacity ⟨"example.com"⟩ - 8 - 1 - env0.numPadding - 1 < 80 then
        Except.error ("domain leaves only "
          ++ toString (env0.dnsNameCapacity ⟨"example.com"⟩ - 8 - 1 - env0.numPadding - 1)
          ++ " bytes for payload")
      else
        Except.ok { Addr := ⟨"example.com"⟩, PubKey := "k",
                    MTU := env0.dnsNameCapacity ⟨"example.com"⟩ - 8 - 1 - env0.numPadding - 1,
                    decodedNoisePubKey := [1, 2] })
    ∧ ((∃ ts, NewTunnelServer env0 "example.com" "k" = Except.ok ts) ↔
        80 ≤ env0.dnsNameCapacity ⟨"example.com"⟩ - 8 - 1 - env0.numPadding - 1) :=
  NewTunnelServer_mtu env0 "example.com" "k" ⟨"example.com"⟩ [1, 2] rfl rfl

/-- Claim C9: whenever the transport accepts the unit size and the KCP conn
opens, `InitiateKCPConn` succeeds and the stored KCP configuration has
stream mode on, `SetNoDelay(0,0,0,1)` (congestion control off, the other
parameters at their defaults), both windows at `QueueSize/2`, and the unit
size set to the given mtu. -/
theorem kcp_conn_configuration (t : Tunnel) (w : World) (mtu : Int)
    (hok : w.setMtuOk mtu = true) (hc : w.newConn2 = Except.ok ()) :
    ∃ conn : KCPConfig,
      Tunnel.InitiateKCPConn t w mtu = Outcome.ok { t with kcpConn := some conn }
      ∧ conn.streamMode = true ∧ conn.nodelay = 0 ∧ conn.interval = 0
      ∧ conn.resend = 0 ∧ conn.nc = 1
      ∧ conn.sndWnd = w.queueSize / 2 ∧ conn.rcvWnd = w.queueSize / 2
      ∧ conn.mtu = mtu := by
  have h : Tunnel.InitiateKCPConn t w mtu = Outcome.ok { t with
      kcpConn := some { streamMode := true, nodelay := 0, interval := 0,
                        resend := 0, nc := 1, sndWnd := w.queueSize / 2,
                        rcvWnd := w.queueSize / 2, mtu := mtu } } := by
    unfold Tunnel.InitiateKCPConn
    rw [hc]
    simp [hok]
  exact ⟨_, h, rfl, rfl, rfl, rfl, rfl, rfl, rfl, rfl⟩

/-- Witness for C9 at a concrete accepted mtu (120 within 50..1500). -/
theorem kcp_conn_configuration_witness :
    ∃ conn : KCPConfig,
      Tunnel.InitiateKCPConn (initTunnel r0 ts0) wOk 120 =
        Outcome.ok { initTunnel r0 ts0 with kcpConn := some conn }
      ∧ conn.streamMode = true ∧ conn.nodelay = 0 ∧ conn.interval = 0
      ∧ conn.resend = 0 ∧ conn.nc = 1
      ∧ conn.sndWnd = wOk.queueSize / 2 ∧ conn.rcvWnd = wOk.queueSize / 2
      ∧ conn.mtu = 120 :=
  kcp_conn_configuration (initTunnel r0 ts0) wOk 120 (by decide) rfl

/-- Claim C10: once the stream is opened, `Tunnel.Handle` returns nil no
matter how either copy direction ended (both goroutines shadow `err`), and
the surrounding per-connection goroutine therefore never logs a handle
error. -/
theorem handle_returns_nil (sched : List Bool) (r1 r2 : Option CopyErr) :
    (Tunnel.Handle (Except.ok ()) sched r1 r2).result = none
    ∧ (connTask (Except.ok ()) sched r1 r2).all (fun e => !e.isHandleLog) = true := by
  refine ⟨rfl, ?_⟩
  have h3 := interleave_all (fun e : Ev => !e.isHandleLog) sched _ _
    (localToStreamEvents_no_handleLog r1) (streamToLocalEvents_no_handleLog r2)
  have h4 : connTask (Except.ok ()) sched r1 r2
      = interleave sched (localToStreamEvents r1) (streamToLocalEvents r2)
        ++ [Ev.endStreamLog, Ev.streamClose, Ev.lconnClose] := by
    simp [connTask, Tunnel.Handle]
  rw [h4, List.all_append, h3]
  rfl

/-- Claim C7: with the stream opened, the local→stream direction ends by
signalling read-closed on the local connection and closing the stream; the
stream→local direction ends by signalling write-closed and never closes
the stream; a direction finishing at end-of-file produces exactly the
events of a clean finish (no error logged); and under every scheduling of
the two directions, the deferred final stream close — and, in the
surrounding goroutine, the release of the local connection — come after
all events of both directions. -/
theorem handle_stream_bridge (sched : List Bool) (r1 r2 : Option CopyErr) :
    (∃ mid, (Tunnel.Handle (Except.ok ()) sched r1 r2).events
          = mid ++ [Ev.endStreamLog, Ev.streamClose]
        ∧ Interleaving (localToStreamEvents r1) (streamToLocalEvents r2) mid)
    ∧ Ev.closeRead ∈ localToStreamEvents r1
    ∧ Ev.streamClose ∈ localToStreamEvents r1
    ∧ Ev.closeWrite ∈ streamToLocalEvents r2
    ∧ (streamToLocalEvents r2).count Ev.streamClose = 0
    ∧ localToStreamEvents (some CopyErr.eof) = localToStreamEvents none
    ∧ streamToLocalEvents (some CopyErr.eof) = streamToLocalEvents none
    ∧ (∃ mid, connTask (Except.ok ()) sched r1 r2
          = mid ++ [Ev.endStreamLog, Ev.streamClose, Ev.lconnClose]
        ∧ Interleaving (localToStreamEvents r1) (streamToLocalEvents r2) mid) := by
  refine ⟨⟨interleave sched (localToStreamEvents r1) (streamToLocalEvents r2), rfl,
      interleaving_interleave _ _ _⟩, ?_, ?_, ?_, ?_, rfl, rfl,
      ⟨interleave sched (localToStreamEvents r1) (streamToLocalEvents r2), ?_,
      interleaving_interleave _ _ _⟩⟩
  · simp [localToStreamEvents]
  · simp [localToStreamEvents]
  · simp [streamToLocalEvents]
  · rcases r2 with _ | e
    · simp [streamToLocalEvents, copyLogEvents]
    · cases e <;> simp [streamToLocalEvents, copyLogEvents]
  · simp [connTask, Tunnel.Handle]

/-- Claim C4 counterexample: on a fully built tunnel whose underlying
closes all fail, `Tunnel.Close` attempts the resolver connection first —
bring-up order, not the claimed smux-first reverse order — and returns
nil, discarding the failures instead of aggregating them. -/
theorem close_order_counterexample :
    (Tunnel.Close cwFail fullT).1
        = [Layer.resolverConn, Layer.dnsPacketConn, Layer.kcpConn,
           Layer.noiseChannel, Layer.smuxSession]
    ∧ (Tunnel.Close cwFail fullT).1.head? = some Layer.resolverConn
    ∧ (Tunnel.Close cwFail fullT).2.2 = none :=
  ⟨rfl, rfl, rfl⟩

/-- Claim C4 as amended: `Tunnel.Close` attempts the present handles in
bring-up order (resolver conn, DNS packet conn, KCP conn, Noise channel,
smux session), skipping absent ones; it continues past individual close
failures — the attempted sequence does not depend on the handles' close
results — but discards those failures and always returns nil, leaving the
handle fields unchanged. -/
theorem close_behavior (cw cw' : CloseWorld) (t : Tunnel) :
    (Tunnel.Close cw t).1 = t.CloseTrace
    ∧ (Tunnel.Close cw t).2.1 = t
    ∧ (Tunnel.Close cw t).2.2 = none
    ∧ (Tunnel.Close cw t).1 = (Tunnel.Close cw' t).1
    ∧ t.CloseTrace = stageOrder.filter (fun l => t.layerPresent l) := by
  refine ⟨rfl, rfl, rfl, rfl, ?_⟩
  rcases t with ⟨res, ts, aset, rc, dc, kc, nchan, sm⟩
  cases rc <;> cases dc <;> cases kc <;> cases nchan <;> cases sm <;> rfl

/-- Claim C8 counterexample: the handle fields are never cleared, so a
second `Close` on a fully built tunnel attempts every handle's close
again — the resolver handle's close is attempted twice across two calls,
contradicting "no handle is ever double-released" (each call still
returns nil). -/
theorem double_close_counterexample :
    (Tunnel.CloseN cwFail fullT 2).trace.count Layer.resolverConn = 2
    ∧ (Tunnel.CloseN cwFail fullT 2).results = [none, none] := by
  refine ⟨?_, rfl⟩
  decide

/-- Claim C8 as amended: any number of `Tunnel.Close` calls, from any
state (including a partially built tunnel), each return nil and never
crash; every close attempt is nil-guarded, so a handle is never closed
while absent — but the fields are not cleared, so each call re-attempts
the close of every present handle. -/
theorem close_idempotent (cw : CloseWorld) (t : Tunnel) (n : Nat) :
    (Tunnel.CloseN cw t n).results = List.replicate n none
    ∧ (Tunnel.CloseN cw t n).final = t
    ∧ (Tunnel.CloseN cw t n).trace = (List.replicate n t.CloseTrace).flatten
    ∧ (Tunnel.CloseN cw t n).trace.all (fun l => t.layerPresent l) = true := by
  induction n with
  | zero => exact ⟨rfl, rfl, rfl, rfl⟩
  | succ n ih =>
    obtain ⟨h1, h2, h3, h4⟩ := ih
    refine ⟨?_, ?_, ?_, ?_⟩
    · simp [Tunnel.CloseN, Tunnel.Close, h1, List.replicate_succ]
    · simp [Tunnel.CloseN, Tunnel.Close, h2]
    · simp [Tunnel.CloseN, Tunnel.Close, h3, List.replicate_succ]
    · have : (Tunnel.CloseN cw t (n + 1)).trace
          = t.CloseTrace ++ (Tunnel.CloseN cw t n).trace := by
        simp [Tunnel.CloseN, Tunnel.Close]
      rw [this, List.all_append, h4, closeTrace_all_present]
      rfl

/-- Claim C6 counterexample: a failing accept produces no log event — the
iteration is silently skipped (the loop does continue, and the following
successful accept is still handed to a goroutine). -/
theorem accept_error_not_logged :
    Outbound.acceptLoop [Except.error "bad accept", Except.ok 7]
        = [AcceptEv.spawned 7]
    ∧ logCount (Outbound.acceptLoop [Except.error "bad accept", Except.ok 7]) = 0 :=
  ⟨rfl, rfl⟩

/-- Claim C6 as amended: an accept error never terminates the loop and is
silently skipped — not logged — and every connection accepted after it is
still handed to its own per-connection task; the loop never emits a log
event at all. -/
theorem accept_loop_resilient (xs ys zs : List (Except String Nat))
    (e : String) (c : Nat) :
    Outbound.acceptLoop (xs ++ Except.error e :: ys)
        = Outbound.acceptLoop xs ++ Outbound.acceptLoop ys
    ∧ Outbound.acceptLoop (xs ++ Except.error e :: Except.ok c :: ys)
        = Outbound.acceptLoop xs ++ AcceptEv.spawned c :: Outbound.acceptLoop ys
    ∧ logCount (Outbound.acceptLoop zs) = 0 := by
  refine ⟨?_, ?_, ?_⟩
  · induction xs with
    | nil => simp [Outbound.acceptLoop]
    | cons a xs ih => cases a <;> simp [Outbound.acceptLoop, ih]
  · induction xs with
    | nil => simp [Outbound.acceptLoop]
    | cons a xs ih => cases a <;> simp [Outbound.acceptLoop, ih]
  · induction zs with
    | nil => rfl
    | cons a zs ih =>
      cases a <;> simp [Outbound.acceptLoop, logCount, List.countP_cons] <;>
        simpa [logCount] using ih

/-- Claim C5 counterexample: when the first two stages succeed and the KCP
stage's unit size is rejected (server MTU 2000 against a 50..1500
transport window), the stage fails but `Outbound.Start` does not return an
error — it aborts via the panic — so "Start returns an error identifying
the failing stage" does not hold for every stage failure (later stages are
indeed not invoked, and the deferred close does run). -/
theorem start_kcp_stage_counterexample :
    (Outbound.Start obBig wOk "127.0.0.1:7000").invoked
        = [Layer.resolverConn, Layer.dnsPacketConn, Layer.kcpConn]
    ∧ (Outbound.Start obBig wOk "127.0.0.1:7000").outcome = Outcome.panicked
    ∧ Outcome.isError (Outbound.Start obBig wOk "127.0.0.1:7000").outcome = false
    ∧ (Outbound.Start obBig wOk "127.0.0.1:7000").closeCalled = true := by
  refine ⟨?_, ?_, ?_, ?_⟩ <;> decide

/-- Claim C5 as amended: once the local listener is bound and the endpoint
lists are non-empty, `Outbound.Start` behaves exactly like the
first-failure driver `bringUp` over the five stage functions in their
fixed order — each stage invoked only after all earlier ones succeeded, a
failing stage preventing all later ones, an error-failing stage's cause
wrapped with the stage's identity in the returned error, and the deferred
close running on every failure (including the KCP panic, which however
ends `Start` without a returned error); the invoked stages always form a
prefix of the stage order, and whenever `Start` does not reach the accept
loop the deferred close has run. -/
theorem start_bringup (o : Outbound) (w : World) (bind : String)
    (resolver : Resolver) (rs : List Resolver)
    (ts : TunnelServer) (tss : List TunnelServer)
    (hr : o.Resolvers = resolver :: rs) (hts : o.TunnelServers = ts :: tss)
    (ha : w.resolveTCPAddr bind = Except.ok ())
    (hl : w.listenTCP = Except.ok ()) :
    o.Start w bind = bringUp w (initTunnel resolver ts) [] stageOrder
    ∧ (∃ k, (o.Start w bind).invoked = stageOrder.take k)
    ∧ ((o.Start w bind).outcome = Outcome.ok ()
        ∨ (o.Start w bind).closeCalled = true) := by
  have heq : o.Start w bind = bringUp w (initTunnel resolver ts) [] stageOrder := by
    obtain ⟨rt, raddr⟩ := resolver
    cases rt with
    | udp =>
      cases h2 : w.resolveUDPAddr raddr with
      | error e =>
        simp [Outbound.Start, hr, hts, ha, hl, NewTunnel, initTunnel, bringUp,
          applyStage, stageOrder, stageWrap, Tunnel.InitiateResolverConnection,
          h2]
      | ok u2 =>
        cases h3 : w.listenUDP with
        | error e =>
          simp [Outbound.Start, hr, hts, ha, hl, NewTunnel, initTunnel, bringUp,
            applyStage, stageOrder, stageWrap, Tunnel.InitiateResolverConnection,
            h2, h3]
        | ok u3 =>
          cases h4 : w.newConn2 with
          | error e =>
            simp [Outbound.Start, hr, hts, ha, hl, NewTunnel, initTunnel,
              bringUp, applyStage, stageOrder, stageWrap,
              Tunnel.InitiateResolverConnection, Tunnel.InitiateDNSPacketConn,
              Tunnel.InitiateKCPConn, h2, h3, h4]
          | ok u4 =>
            cases h5 : w.setMtuOk ts.MTU with
            | false =>
              simp [Outbound.Start, hr, hts, ha, hl, NewTunnel, initTunnel,
                bringUp, applyStage, stageOrder, stageWrap,
                Tunnel.InitiateResolverConnection, Tunnel.InitiateDNSPacketConn,
                Tunnel.InitiateKCPConn, h2, h3, h4, h5]
            | true =>
              cases h6 : w.noiseNewClient with
              | error e =>
                simp [Outbound.Start, hr, hts, ha, hl, NewTunnel, initTunnel,
                  bringUp, applyStage, stageOrder, stageWrap,
                  Tunnel.InitiateResolverConnection,
                  Tunnel.InitiateDNSPacketConn, Tunnel.InitiateKCPConn,
                  Tunnel.InitiateNoiseChannel, h2, h3, h4, h5, h6]
              | ok u6 =>
                cases h7 : w.smuxClient with
                | error e =>
                  simp [Outbound.Start, hr, hts, ha, hl, NewTunnel, initTunnel,
                    bringUp, applyStage, stageOrder, stageWrap,
                    Tunnel.InitiateResolverConnection,
                    Tunnel.InitiateDNSPacketConn, Tunnel.InitiateKCPConn,
                    Tunnel.InitiateNoiseChannel, Tunnel.InitiateSmuxSession,
                    h2, h3, h4, h5, h6, h7]
                | ok u7 =>
                  simp [Outbound.Start, hr, hts, ha, hl, NewTunnel, initTunnel,
                    bringUp, applyStage, stageOrder, stageWrap,
                    Tunnel.InitiateResolverConnection,
                    Tunnel.InitiateDNSPacketConn, Tunnel.InitiateKCPConn,
                    Tunnel.InitiateNoiseChannel, Tunnel.InitiateSmuxSession,
                    h2, h3, h4, h5, h6, h7]
    | dot =>
      simp [Outbound.Start, hr, hts, ha, hl, NewTunnel, initTunnel, bringUp,
        applyStage, stageOrder, stageWrap, Tunnel.InitiateResolverConnection,
        ResolverType.str]
    | doh =>
      simp [Outbound.Start, hr, hts, ha, hl, NewTunnel, initTunnel, bringUp,
        applyStage, stageOrder, stageWrap, Tunnel.InitiateResolverConnection,
        ResolverType.str]
  refine ⟨heq, ?_, ?_⟩
  · rw [heq]
    simpa using bringUp_invoked_take w stageOrder (initTunnel resolver ts) []
  · rw [heq]
    exact bringUp_close_or_ok w stageOrder (initTunnel resolver ts) []

/-- Witness for C5 at a concrete world in which every stage succeeds. -/
theorem start_bringup_witness :
    Outbound.Start ob0 wOk "127.0.0.1:7000"
        = bringUp wOk (initTunnel r0 ts0) [] stageOrder
    ∧ (∃ k, (Outbound.Start ob0 wOk "127.0.0.1:7000").invoked = stageOrder.take k)
    ∧ ((Outbound.Start ob0 wOk "127.0.0.1:7000").outcome = Outcome.ok ()
        ∨ (Outbound.Start ob0 wOk "127.0.0.1:7000").closeCalled = true) :=
  start_bringup ob0 wOk "127.0.0.1:7000" r0 [] ts0 [] rfl rfl rfl rfl

end Dnstt
